import Mathlib

/-!
Verification development for the EDUFACE attendance system
(`src/app/db.py`, `src/app/main.py`).

The Python/SQLAlchemy data model and the endpoint logic are shallowly
embedded as executable Lean definitions:

* SQLite rows become Lean structures; the database session becomes an
  explicit `DB` state (lists of rows plus autoincrement counters, which
  SQLite starts at 1).
* `datetime.datetime` values are modelled as a calendar day index plus the
  microseconds elapsed since local midnight (`datetime` has microsecond
  resolution); `datetime.date` values as the day index.
* Python `float` distances and percentages are modelled as exact rationals
  `ℚ`; `round(x, 2)` is modelled as rounding the rational to two decimal
  places (`round2`).  All numeric facts proved below are decided away from
  representation-dependent ties, so the binary-float tie-breaking rule is
  immaterial to every statement in this file.
* Every endpoint is translated from the source in `src/app/main.py`;
  comments on each definition cite the function it embeds.
-/

namespace Eduface

/-! ## Data model, from `src/app/db.py` -/

/-- A timestamp: calendar day index plus microseconds since local midnight
(`datetime.datetime` values compare by date, then by time of day). -/
structure DateTime where
  day : Nat
  tod : Nat
deriving DecidableEq, Repr

/-- `datetime.date()` / `date.today()` of a timestamp. -/
def DateTime.dateOf (t : DateTime) : Nat := t.day

/-- Row of table `students` (`class Student`, `src/app/db.py` lines 13-24).
`section` is a Lean keyword, hence the field name `section_`. -/
structure Student where
  id : Nat
  code : String
  name : String
  grade : Option String := none
  section_ : Option String := none
  gender : Option String := none
  registration_date : Option Nat := none
  photo_path : Option String := none
deriving DecidableEq, Repr

/-- Row of table `attendances` (`class Attendance`, `src/app/db.py`
lines 27-38): student foreign key, calendar date, full timestamp, and a
status string (`Puntual` / `Tarde`). -/
structure Attendance where
  id : Nat
  student_id : Nat
  date : Nat
  time : DateTime
  status : String
deriving DecidableEq, Repr

/-- The database state: the two tables plus the autoincrement counters for
the next primary keys (SQLite `INTEGER PRIMARY KEY` starts at 1). -/
structure DB where
  students : List Student
  attendances : List Attendance
  nextSid : Nat
  nextAid : Nat
deriving DecidableEq, Repr

/-- The freshly created schema (`init_db`). -/
def initDB : DB := { students := [], attendances := [], nextSid := 1, nextAid := 1 }

/-! ## Identity resolver, from `attendance_mark` (`src/app/main.py`
lines 852-867): the decision layer over the raw candidate list returned by
the external matching engine. -/

/-- One `{identity, distance}` candidate row of the engine result frame. -/
structure Cand where
  identity : String
  distance : ℚ
deriving DecidableEq, Repr

/-- Ordering of candidates by distance, used by `df.sort_values('distance')`. -/
def candLE (a b : Cand) : Prop := a.distance ≤ b.distance

instance : DecidableRel candLE := fun a b => inferInstanceAs (Decidable (a.distance ≤ b.distance))

instance : IsTotal Cand candLE := ⟨fun a b => le_total a.distance b.distance⟩

instance : IsTrans Cand candLE := ⟨fun _ _ _ h1 h2 => le_trans h1 h2⟩

/-- `df.sort_values('distance')`: sort the candidate list ascending by
distance. -/
def sortByDistance (cs : List Cand) : List Cand := List.insertionSort candLE cs

/-- The resolver outcome, mirroring the JSON payloads returned from
`attendance_mark` before any ledger write: an `unknown` decision with its
optional `reason`, `distance` and `margin` fields, or acceptance of the
best candidate (the code path that proceeds to mark attendance). -/
inductive Decision where
  | unknown (reason : Option String) (distance : Option ℚ) (margin : Option ℚ)
  | accepted (identity : String) (distance : ℚ)
deriving DecidableEq, Repr

/-- The accept/reject decision of `attendance_mark` (lines 852-867):
empty frame → bare `unknown` (no reason field); best distance above the
effective threshold → `above_threshold`; a second candidate closer than
`min_margin` to the best → `low_margin`; otherwise the best candidate is
accepted. -/
def resolveIdentity (cs : List Cand) (effMaxDistance minMargin : ℚ) : Decision :=
  match sortByDistance cs with
  | [] => .unknown none none none
  | best :: rest =>
    if effMaxDistance < best.distance then
      .unknown (some "above_threshold") (some best.distance) none
    else
      match rest with
      | second :: _ =>
        if second.distance - best.distance < minMargin then
          .unknown (some "low_margin") (some best.distance) (some (second.distance - best.distance))
        else
          .accepted best.identity best.distance
      | [] => .accepted best.identity best.distance

/-! ## Attendance ledger, from `attendance_mark` (`src/app/main.py`
lines 869-887). -/

/-- The 07:30:00 cutoff (`now.replace(hour=7, minute=30, second=0,
microsecond=0)`) expressed in microseconds since midnight. -/
def cutoffMicros : Nat := 27000000000

/-- Line 881: `status = 'Tarde' if now > cutoff else 'Puntual'`; `now` and
`cutoff` share the date, so the comparison is on the time of day. -/
def classifyStatus (now : DateTime) : String :=
  if cutoffMicros < now.tod then "Tarde" else "Puntual"

/-- Lines 869-874: look the student up by code; if absent, auto-enroll a
new row using the code as placeholder name. -/
def resolveOrCreateStudent (db : DB) (code : String) : Student × DB :=
  match db.students.find? (fun s => s.code == code) with
  | some s => (s, db)
  | none =>
    let s : Student := { id := db.nextSid, code := code, name := code }
    (s, { db with students := db.students ++ [s], nextSid := db.nextSid + 1 })

/-- The `filter_by(student_id=…, date=…)` lookup predicate of line 877. -/
def attKeyIs (sid day : Nat) (a : Attendance) : Bool :=
  a.student_id == sid && a.date == day

/-- Result of a ledger write: the attendance row the handler goes on to
serialize, whether the `if not att` branch created it, and the new state. -/
structure MarkResult where
  att : Attendance
  wasNew : Bool
  db : DB
deriving DecidableEq, Repr

/-- Lines 869-885 of `attendance_mark`: resolve or create the student,
look up the (student, today) attendance row, and insert a freshly
classified row only when none exists. -/
def markAttendance (db : DB) (code : String) (now : DateTime) : MarkResult :=
  let rc := resolveOrCreateStudent db code
  let student := rc.1
  let db1 := rc.2
  let today := now.dateOf
  match db1.attendances.find? (attKeyIs student.id today) with
  | some att => ⟨att, false, db1⟩
  | none =>
    let att : Attendance :=
      { id := db1.nextAid, student_id := student.id, date := today,
        time := now, status := classifyStatus now }
    ⟨att, true, { db1 with attendances := db1.attendances ++ [att],
                           nextAid := db1.nextAid + 1 }⟩

/-- The JSON payload of line 887: `{"status": "marked", "student": code,
"attendance": {date, time, status}, "distance": …}` (the `model` and
`detector` echo fields are request constants and are omitted). -/
structure MarkResponse where
  status : String
  student : String
  attDate : Nat
  attTime : DateTime
  attStatus : String
  distance : ℚ
deriving DecidableEq, Repr

/-- The response `attendance_mark` builds on the accepted path (line 887),
as a function of the pre-call state and the recognition distance. -/
def markResponse (db : DB) (code : String) (now : DateTime) (dist : ℚ) : MarkResponse :=
  let r := markAttendance db code now
  let student := (resolveOrCreateStudent db code).1
  { status := "marked", student := student.code, attDate := r.att.date,
    attTime := r.att.time, attStatus := r.att.status, distance := dist }

/-! ## Administrative operations on the registry and the ledger, from
`src/app/main.py`. -/

/-- The body of `StudentCreate` (`create_student`, lines 1168-1185). -/
structure StudentPayload where
  code : String
  name : String
  grade : Option String := none
  section_ : Option String := none
  gender : Option String := none
  registration_date : Option Nat := none
  photo_path : Option String := none
deriving DecidableEq, Repr

/-- `create_student` (lines 1168-1185): reject a duplicate code with
HTTP 400 (no write), else insert the new row. -/
def createStudent (db : DB) (p : StudentPayload) : DB :=
  match db.students.find? (fun s => s.code == p.code) with
  | some _ => db
  | none =>
    { db with
      students := db.students ++
        [{ id := db.nextSid, code := p.code, name := p.name, grade := p.grade,
           section_ := p.section_, gender := p.gender,
           registration_date := p.registration_date, photo_path := p.photo_path }],
      nextSid := db.nextSid + 1 }

/-- The body of `StudentUpdate` with pydantic `exclude_unset` semantics:
the outer `Option` records whether the field was sent at all, the inner
value is what `setattr` stores (`update_student`, lines 1209-1218). -/
structure UpdatePayload where
  name : Option String := none
  grade : Option (Option String) := none
  section_ : Option (Option String) := none
  gender : Option (Option String) := none
  registration_date : Option (Option Nat) := none
  photo_path : Option (Option String) := none
deriving DecidableEq, Repr

/-- The `setattr` loop of `update_student` line 1214-1215: overwrite
exactly the fields that were sent; `id` and `code` are not part of
`StudentUpdate` and stay untouched. -/
def applyUpdate (s : Student) (p : UpdatePayload) : Student :=
  { s with
    name := p.name.getD s.name,
    grade := p.grade.getD s.grade,
    section_ := p.section_.getD s.section_,
    gender := p.gender.getD s.gender,
    registration_date := p.registration_date.getD s.registration_date,
    photo_path := p.photo_path.getD s.photo_path }

/-- `update_student` (lines 1209-1218): 404 (no write) when the id is
unknown, else update the row fetched by primary key. -/
def updateStudent (db : DB) (sid : Nat) (p : UpdatePayload) : DB :=
  if db.students.any (fun s => s.id == sid) then
    { db with students := db.students.map (fun s => if s.id == sid then applyUpdate s p else s) }
  else db

/-- `delete_student` (lines 1221-1261): 404 (no write) when the id is
unknown; otherwise `db.delete(st)` removes the student row and — through
the ORM relationship `cascade='all,delete'` (`src/app/db.py` line 24) —
every attendance row of that student. -/
def deleteStudent (db : DB) (sid : Nat) : DB :=
  if db.students.any (fun s => s.id == sid) then
    { db with
      students := db.students.filter (fun s => ! (s.id == sid)),
      attendances := db.attendances.filter (fun a => ! (a.student_id == sid)) }
  else db

/-- `admin_clear_date` / `admin_clear_today` (lines 921-944): bulk delete
of attendance rows for one date. -/
def clearDate (db : DB) (d : Nat) : DB :=
  { db with attendances := db.attendances.filter (fun a => ! (a.date == d)) }

/-- `admin_clear_all` (lines 929-933): bulk delete of all attendance rows. -/
def clearAllAttendance (db : DB) : DB :=
  { db with attendances := [] }

/-- `admin_clear_students_all` (lines 1384-1424): the bulk
`db.query(Student).delete(synchronize_session=False)` issues a plain
`DELETE FROM students`.  SQLAlchemy ORM relationship cascades do not run
for bulk query deletes, and SQLite does not enforce the foreign key by
default, so attendance rows survive as orphans. -/
def clearAllStudents (db : DB) : DB :=
  { db with students := [] }

/-! ## Reachable states: the writer operations of the system. -/

/-- One state-changing request (the read-only metrics endpoints do not
alter `DB`). -/
inductive Op where
  | mark (code : String) (now : DateTime)
  | create (p : StudentPayload)
  | update (sid : Nat) (p : UpdatePayload)
  | delete (sid : Nat)
  | clearDate (d : Nat)
  | clearAllAtt
  | clearAllStudents
deriving Repr

/-- State transition of each writer endpoint. -/
def applyOp (db : DB) : Op → DB
  | .mark code now => (markAttendance db code now).db
  | .create p => createStudent db p
  | .update sid p => updateStudent db sid p
  | .delete sid => deleteStudent db sid
  | .clearDate d => clearDate db d
  | .clearAllAtt => clearAllAttendance db
  | .clearAllStudents => clearAllStudents db

/-- States reachable from the fresh schema by any sequence of requests. -/
inductive Reachable : DB → Prop
  | init : Reachable initDB
  | step (db : DB) (op : Op) : Reachable db → Reachable (applyOp db op)

/-- The structural invariants maintained by the writers: primary keys are
unique and below the autoincrement counters, and the ledger satisfies the
`uq_attendance_student_date` uniqueness constraint (`src/app/db.py`
lines 36-38).  (Referential integrity of `student_id` is deliberately not
part of this invariant: the bulk student clear orphans attendance rows.) -/
structure Inv (db : DB) : Prop where
  studentIds : (db.students.map (fun s => s.id)).Nodup
  studentIdLt : ∀ s ∈ db.students, s.id < db.nextSid
  attIds : (db.attendances.map (fun a => a.id)).Nodup
  attIdLt : ∀ a ∈ db.attendances, a.id < db.nextAid
  attKeys : (db.attendances.map (fun a => (a.student_id, a.date))).Nodup

/-- Referential integrity of the ledger: every attendance row points at a
registered student.  Holds until the first bulk student clear. -/
def AttFK (db : DB) : Prop :=
  ∀ a ∈ db.attendances, ∃ s ∈ db.students, s.id = a.student_id

/-! ## Metrics aggregator, from `src/app/main.py`. -/

/-- Python `round(x, 2)`, modelled on exact rationals: round `x` to two
decimal places (`Mathlib`'s `round`, i.e. to the nearest multiple of
`1/100`).  Every rounded value proved about below is far from a tie, so
the binary-float tie-breaking of CPython is immaterial. -/
def round2 (q : ℚ) : ℚ := ((round (q * 100) : ℤ) : ℚ) / 100

/-- `db.query(Attendance).join(Student, Student.id == Attendance.student_id)`:
one row per attendance row and matching student row. -/
def joinedRows (db : DB) : List (Attendance × Student) :=
  db.attendances.flatMap (fun a =>
    (db.students.filter (fun s => s.id == a.student_id)).map (fun s => (a, s)))

/-- The grade / section filters of `metrics_summary` lines 1042-1045 and
1052-1057 (SQL equality against `NULL` is false, hence `== some _`). -/
def studentFilter (grade section_ : Option String) (s : Student) : Bool :=
  (match grade with | some g => s.grade == some g | none => true) &&
  (match section_ with | some c => s.section_ == some c | none => true)

/-- The `WHERE` clauses of `metrics_summary` / `metrics_detailed`: optional
inclusive date bounds on the attendance row, optional equality filters on
the joined student's grade and section. -/
def rowFilter (start stop : Option Nat) (grade section_ : Option String)
    (r : Attendance × Student) : Bool :=
  (match start with | some d => decide (d ≤ r.1.date) | none => true) &&
  (match stop with | some d => decide (r.1.date ≤ d) | none => true) &&
  studentFilter grade section_ r.2

/-- The filtered registry (`student_q`, lines 1052-1057). -/
def filteredStudents (db : DB) (grade section_ : Option String) : List Student :=
  db.students.filter (studentFilter grade section_)

/-- The filtered joined attendance rows (`q`, lines 1033-1045). -/
def summaryRows (db : DB) (start stop : Option Nat) (grade section_ : Option String) :
    List (Attendance × Student) :=
  (joinedRows db).filter (rowFilter start stop grade section_)

/-- The `SELECT DISTINCT attendances.student_id` count of lines 1065-1075
(and 1080-1086 in the no-range branch): distinct student ids among the
joined, filtered attendance rows. -/
def distinctAttendees (db : DB) (start stop : Option Nat) (grade section_ : Option String) : Nat :=
  ((summaryRows db start stop grade section_).map (fun r => r.1.student_id)).dedup.length

/-- The response of `metrics_summary` (lines 1090-1096). -/
structure SummaryOut where
  students_total : Nat
  records_total : Nat
  punctuality_pct : ℚ
  late_pct : ℚ
  absent_pct : ℚ
deriving DecidableEq, Repr

/-- `metrics_summary` (lines 1005-1096) for an explicitly given range
(the named-period branch only rewrites `start`/`stop` before this logic
runs).  Percentages guard their divisions with `if total else 0.0`; the
absentee branch with both bounds present uses the range-filtered distinct
count, the other branch ignores the date bounds entirely. -/
def metricsSummary (db : DB) (grade section_ : Option String)
    (start stop : Option Nat) : SummaryOut :=
  let rows := summaryRows db start stop grade section_
  let total := rows.length
  let punctual := (rows.filter (fun r => r.1.status == "Puntual")).length
  let late := (rows.filter (fun r => r.1.status == "Tarde")).length
  let students_total := (filteredStudents db grade section_).length
  let punctuality : ℚ := if total ≠ 0 then (punctual : ℚ) / (total : ℚ) * 100 else 0
  let late_pct : ℚ := if total ≠ 0 then (late : ℚ) / (total : ℚ) * 100 else 0
  let withAtt :=
    match start, stop with
    | some _, some _ => distinctAttendees db start stop grade section_
    | _, _ => distinctAttendees db none none grade section_
  let absent : ℤ := (students_total : ℤ) - (withAtt : ℤ)
  let absent_pct : ℚ :=
    if students_total ≠ 0 then round2 ((absent : ℚ) / (students_total : ℚ) * 100) else 0
  { students_total := students_total, records_total := total,
    punctuality_pct := round2 punctuality, late_pct := round2 late_pct,
    absent_pct := absent_pct }

/-- The response of `metrics_today` (lines 997-1002); `absent_today` is a
Python int, hence `ℤ`. -/
structure TodayOut where
  total_today : Nat
  punctual_today : Nat
  late_today : Nat
  absent_today : ℤ
deriving DecidableEq, Repr

/-- `metrics_today` (lines 988-1002): unfiltered counts of today's
attendance rows (no join) and `absent = max(total_students - total_today, 0)`. -/
def metricsToday (db : DB) (today : Nat) : TodayOut :=
  let todayRows := db.attendances.filter (fun a => a.date == today)
  let total_students := db.students.length
  { total_today := todayRows.length,
    punctual_today := (todayRows.filter (fun a => a.status == "Puntual")).length,
    late_today := (todayRows.filter (fun a => a.status == "Tarde")).length,
    absent_today := max ((total_students : ℤ) - (todayRows.length : ℤ)) 0 }

/-- The five fixed arrival buckets of `metrics_detailed` (line 1144). -/
inductive Bucket where
  | b0730 | b0745 | b0800 | b0815 | b0830plus
deriving DecidableEq, Repr

/-- Bucket boundaries in microseconds since midnight: 07:45, 08:00,
08:15, 08:30. -/
def micros0745 : Nat := 27900000000
def micros0800 : Nat := 28800000000
def micros0815 : Nat := 29700000000
def micros0830 : Nat := 30600000000

/-- The `if/elif` chain of `metrics_detailed` lines 1148-1158: which
bucket counter a record's time of day increments.  Note that a time
before 07:30 fails the first guard and falls through to the
`t < 08:00` branch. -/
def bucketOf (t : Nat) : Bucket :=
  if cutoffMicros ≤ t ∧ t < micros0745 then .b0730
  else if t < micros0800 then .b0745
  else if t < micros0815 then .b0800
  else if t < micros0830 then .b0815
  else .b0830plus

/-- The response of `metrics_detailed` (line 1160): the gender histogram
as a counting function over display keys (`st.gender or '-'`), the five
bucket counters, and the row count. -/
structure DetailedOut where
  gender_distribution : String → Nat
  bucket0730 : Nat
  bucket0745 : Nat
  bucket0800 : Nat
  bucket0815 : Nat
  bucket0830plus : Nat
  count : Nat

/-- `metrics_detailed` (lines 1130-1160): filter the joined rows, then
histogram genders and arrival times. -/
def metricsDetailed (db : DB) (start stop : Option Nat)
    (grade section_ : Option String) : DetailedOut :=
  let rows := summaryRows db start stop grade section_
  { gender_distribution := fun g =>
      (rows.filter (fun r => (r.2.gender.getD "-") == g)).length,
    bucket0730 := (rows.filter (fun r => bucketOf r.1.time.tod == .b0730)).length,
    bucket0745 := (rows.filter (fun r => bucketOf r.1.time.tod == .b0745)).length,
    bucket0800 := (rows.filter (fun r => bucketOf r.1.time.tod == .b0800)).length,
    bucket0815 := (rows.filter (fun r => bucketOf r.1.time.tod == .b0815)).length,
    bucket0830plus := (rows.filter (fun r => bucketOf r.1.time.tod == .b0830plus)).length,
    count := rows.length }


/-! ## Concrete states and claim-side definitions used by the theorems below -/

/-- A concrete reachable state for the C1 witness: one marking on the
fresh database. -/
def dbOneMark : DB := applyOp initDB (Op.mark "ana" ⟨0, 27000000000⟩)

/-- The `reason` field carried by a decision (absent on acceptance). -/
def Decision.reasonOf : Decision → Option String
  | .unknown r _ _ => r
  | .accepted _ _ => none

/-- A two-student state with one attendance row each, for the C10 witness. -/
def dbTwoStudents : DB :=
  { students := [{ id := 1, code := "eva", name := "Eva" },
                 { id := 2, code := "luz", name := "Luz" }],
    attendances := [⟨1, 1, 5, ⟨5, 100⟩, "Puntual"⟩, ⟨2, 2, 5, ⟨5, 200⟩, "Tarde"⟩],
    nextSid := 3, nextAid := 3 }

/-- The concrete timestamps of the C2 counterexample: same day, 07:30:00
and 08:20:00. -/
def t1C2 : DateTime := ⟨3, 27000000000⟩

def t2C2 : DateTime := ⟨3, 30000000000⟩

/-- The orphan state of the C7 counterexample: one marking, then the bulk
student clear (which does not cascade: `query.delete` bypasses ORM
cascades and SQLite leaves the foreign key unenforced). -/
def dbOrphan : DB :=
  applyOp (applyOp initDB (Op.mark "eva" ⟨0, 27000000000⟩)) Op.clearAllStudents

/-- The claim's half-open bucket intervals, with absolute boundaries
07:30, 07:45, 08:00, 08:15, 08:30 (this definition follows the spec's
words, for comparison with the code's `bucketOf`). -/
def specBucketContains (b : Bucket) (t : Nat) : Bool :=
  match b with
  | .b0730 => decide (cutoffMicros ≤ t) && decide (t < micros0745)
  | .b0745 => decide (micros0745 ≤ t) && decide (t < micros0800)
  | .b0800 => decide (micros0800 ≤ t) && decide (t < micros0815)
  | .b0815 => decide (micros0815 ≤ t) && decide (t < micros0830)
  | .b0830plus => decide (micros0830 ≤ t)

/-- The one-record state of the C6 failing input: a single attendance row
whose stored time of day is 07:00:00 (25200000000 µs). -/
def dbC6 : DB :=
  { students := [{ id := 1, code := "eva", name := "Eva" }],
    attendances := [⟨1, 1, 10, ⟨10, 25200000000⟩, "Puntual"⟩],
    nextSid := 2, nextAid := 2 }

/-- The claim's absentee complement: filtered persons having at least one
attendance record dated within the inclusive range (this definition
follows the spec's words, for comparison with the code's distinct count). -/
def attendedCount (db : DB) (grade section_ : Option String) (a b : Nat) : Nat :=
  ((filteredStudents db grade section_).filter
    (fun s => db.attendances.any
      (fun r => r.student_id == s.id && (decide (a ≤ r.date) && decide (r.date ≤ b))))).length

/-- A three-student registry with one in-range record: the exact absentee
percentage is 200/3, which no two-decimal value can equal. -/
def dbC5three : DB :=
  { students := [{ id := 1, code := "a", name := "a" },
                 { id := 2, code := "b", name := "b" },
                 { id := 3, code := "c", name := "c" }],
    attendances := [{ id := 1, student_id := 1, date := 10,
                      time := ⟨10, 0⟩, status := "Puntual" }],
    nextSid := 4, nextAid := 2 }

/-- A five-student registry of which exactly 2 have records inside the
queried range [10, 20] (a third record lies outside the range). -/
def dbC5five : DB :=
  { students := [{ id := 1, code := "a", name := "a" },
                 { id := 2, code := "b", name := "b" },
                 { id := 3, code := "c", name := "c" },
                 { id := 4, code := "d", name := "d" },
                 { id := 5, code := "e", name := "e" }],
    attendances := [{ id := 1, student_id := 1, date := 12,
                      time := ⟨12, 0⟩, status := "Puntual" },
                    { id := 2, student_id := 2, date := 14,
                      time := ⟨14, 100⟩, status := "Tarde" },
                    { id := 3, student_id := 3, date := 25,
                      time := ⟨25, 0⟩, status := "Puntual" }],
    nextSid := 6, nextAid := 4 }

/-! ## General list helpers -/

/-- Appending an element whose key differs from every present key keeps
the key list duplicate-free. -/
theorem nodup_map_concat {α β : Type} (f : α → β) {l : List α} {x : α}
    (h : (l.map f).Nodup) (hx : ∀ a ∈ l, f a ≠ f x) :
    ((l ++ [x]).map f).Nodup := by
  rw [List.map_append, List.nodup_append]
  refine ⟨h, List.nodup_singleton _, ?_⟩
  intro b hb hbx
  rcases List.mem_map.mp hb with ⟨a, ha, rfl⟩
  simp only [List.map_cons, List.map_nil, List.mem_cons, List.not_mem_nil, or_false] at hbx
  exact hx a ha hbx

/-- Filtering a list keeps its key list duplicate-free. -/
theorem nodup_map_filter {α β : Type} (f : α → β) (p : α → Bool) {l : List α}
    (h : (l.map f).Nodup) : ((l.filter p).map f).Nodup :=
  h.sublist ((List.filter_sublist l).map f)

/-- Mapping a key-preserving function across a list keeps the key list. -/
theorem map_map_key {α β : Type} (f : α → β) (g : α → α) (l : List α)
    (h : ∀ a ∈ l, f (g a) = f a) : ((l.map g).map f) = l.map f := by
  rw [List.map_map]
  exact List.map_congr_left h

/-- Two entries of a list with duplicate-free keys that share a key are the
same entry. -/
theorem eq_of_mem_of_nodup_map {α β : Type} {f : α → β} {l : List α}
    (h : (l.map f).Nodup) {a b : α} (ha : a ∈ l) (hb : b ∈ l) (hf : f a = f b) :
    a = b :=
  List.inj_on_of_nodup_map h ha hb hf

/-! ## Case-analysis lemmas for the write path -/

theorem rocs_attendances (db : DB) (code : String) :
    (resolveOrCreateStudent db code).2.attendances = db.attendances := by
  unfold resolveOrCreateStudent
  cases db.students.find? (fun s => s.code == code) <;> rfl

theorem rocs_nextAid (db : DB) (code : String) :
    (resolveOrCreateStudent db code).2.nextAid = db.nextAid := by
  unfold resolveOrCreateStudent
  cases db.students.find? (fun s => s.code == code) <;> rfl

/-- `resolve_or_create`: either the student was found (state unchanged) or
a fresh row with id `nextSid` was appended. -/
theorem rocs_cases (db : DB) (code : String) :
    ((resolveOrCreateStudent db code).2 = db ∧
      (resolveOrCreateStudent db code).1 ∈ db.students) ∨
    ((resolveOrCreateStudent db code).1.id = db.nextSid ∧
      (resolveOrCreateStudent db code).2.students
        = db.students ++ [(resolveOrCreateStudent db code).1] ∧
      (resolveOrCreateStudent db code).2.nextSid = db.nextSid + 1 ∧
      (∀ s ∈ db.students, ¬ (s.code == code) = true)) := by
  unfold resolveOrCreateStudent
  cases h : db.students.find? (fun s => s.code == code) with
  | some s =>
    exact Or.inl ⟨rfl, List.mem_of_find?_eq_some h⟩
  | none =>
    refine Or.inr ⟨rfl, rfl, rfl, ?_⟩
    exact List.find?_eq_none.mp h

/-- The resolved student is registered in the post-resolution state. -/
theorem rocs_mem (db : DB) (code : String) :
    (resolveOrCreateStudent db code).1 ∈ (resolveOrCreateStudent db code).2.students := by
  rcases rocs_cases db code with ⟨heq, hmem⟩ | ⟨_, hst, _, _⟩
  · rw [heq]; exact hmem
  · rw [hst]; exact List.mem_append_right _ (List.mem_singleton_self _)

/-- `markAttendance`: either the (student, today) row existed (state
unchanged past student resolution, `wasNew = false`) or a fresh row with
id `nextAid` was appended (`wasNew = true`). -/
theorem mark_cases (db : DB) (code : String) (now : DateTime) :
    ((markAttendance db code now).wasNew = false ∧
      (markAttendance db code now).db = (resolveOrCreateStudent db code).2 ∧
      (resolveOrCreateStudent db code).2.attendances.find?
        (attKeyIs (resolveOrCreateStudent db code).1.id now.dateOf)
        = some (markAttendance db code now).att) ∨
    ((markAttendance db code now).wasNew = true ∧
      (∀ a ∈ (resolveOrCreateStudent db code).2.attendances,
        ¬ (attKeyIs (resolveOrCreateStudent db code).1.id now.dateOf a) = true) ∧
      (markAttendance db code now).att
        = { id := (resolveOrCreateStudent db code).2.nextAid,
            student_id := (resolveOrCreateStudent db code).1.id,
            date := now.dateOf, time := now, status := classifyStatus now } ∧
      (markAttendance db code now).db
        = { (resolveOrCreateStudent db code).2 with
            attendances := (resolveOrCreateStudent db code).2.attendances
              ++ [(markAttendance db code now).att],
            nextAid := (resolveOrCreateStudent db code).2.nextAid + 1 }) := by
  rcases hfind : (resolveOrCreateStudent db code).2.attendances.find?
      (attKeyIs (resolveOrCreateStudent db code).1.id now.dateOf) with _ | att
  · exact Or.inr ⟨by simp [markAttendance, hfind], List.find?_eq_none.mp hfind,
      by simp [markAttendance, hfind], by simp [markAttendance, hfind]⟩
  · exact Or.inl ⟨by simp [markAttendance, hfind], by simp [markAttendance, hfind],
      by simp [markAttendance, hfind]⟩

/-! ## Invariant preservation -/

theorem applyUpdate_id (s : Student) (p : UpdatePayload) : (applyUpdate s p).id = s.id := rfl

theorem inv_rocs (db : DB) (code : String) (h : Inv db) :
    Inv (resolveOrCreateStudent db code).2 := by
  rcases rocs_cases db code with ⟨heq, _⟩ | ⟨hid, hst, hns, _⟩
  · rw [heq]; exact h
  · refine ⟨?_, ?_, ?_, ?_, ?_⟩
    · rw [hst]
      refine nodup_map_concat _ h.studentIds ?_
      intro s hs
      have hlt := h.studentIdLt s hs
      simp only [hid]
      omega
    · intro s hs
      rw [hst] at hs
      rw [hns]
      rcases List.mem_append.mp hs with hs | hs
      · have := h.studentIdLt s hs; omega
      · rcases List.mem_singleton.mp hs with rfl
        rw [hid]; omega
    · rw [rocs_attendances]; exact h.attIds
    · intro a ha
      rw [rocs_attendances] at ha
      rw [rocs_nextAid]
      exact h.attIdLt a ha
    · rw [rocs_attendances]; exact h.attKeys

theorem inv_mark (db : DB) (code : String) (now : DateTime) (h : Inv db) :
    Inv (markAttendance db code now).db := by
  have h1 : Inv (resolveOrCreateStudent db code).2 := inv_rocs db code h
  rcases mark_cases db code now with ⟨_, hdb, _⟩ | ⟨_, hnone, hatt, hdb⟩
  · rw [hdb]; exact h1
  · rw [hdb]
    refine ⟨h1.studentIds, h1.studentIdLt, ?_, ?_, ?_⟩
    · dsimp only
      refine nodup_map_concat _ h1.attIds ?_
      intro a ha
      have hlt := h1.attIdLt a ha
      rw [hatt]
      dsimp only
      omega
    · intro a ha
      dsimp only at ha ⊢
      rcases List.mem_append.mp ha with ha | ha
      · have := h1.attIdLt a ha; omega
      · rcases List.mem_singleton.mp ha with rfl
        rw [hatt]; dsimp only; omega
    · dsimp only
      refine nodup_map_concat _ h1.attKeys ?_
      intro a ha
      have hk := hnone a ha
      simp only [attKeyIs, Bool.and_eq_true, beq_iff_eq, not_and] at hk
      rw [hatt]
      simp only [ne_eq, Prod.mk.injEq, not_and]
      exact hk

theorem inv_create (db : DB) (p : StudentPayload) (h : Inv db) :
    Inv (createStudent db p) := by
  unfold createStudent
  cases hf : db.students.find? (fun s => s.code == p.code) with
  | some s => exact h
  | none =>
    refine ⟨?_, ?_, h.attIds, h.attIdLt, h.attKeys⟩
    · dsimp only
      refine nodup_map_concat _ h.studentIds ?_
      intro s hs
      have hlt := h.studentIdLt s hs
      dsimp only
      omega
    · intro s hs
      dsimp only at hs ⊢
      rcases List.mem_append.mp hs with hs | hs
      · have := h.studentIdLt s hs; omega
      · rcases List.mem_singleton.mp hs with rfl
        dsimp only
        omega

theorem inv_update (db : DB) (sid : Nat) (p : UpdatePayload) (h : Inv db) :
    Inv (updateStudent db sid p) := by
  unfold updateStudent
  split
  · refine ⟨?_, ?_, h.attIds, h.attIdLt, h.attKeys⟩
    · have he : List.map (fun s => s.id)
          (List.map (fun s => if s.id == sid then applyUpdate s p else s) db.students)
          = List.map (fun s => s.id) db.students := by
        apply map_map_key
        intro s _
        by_cases hc : (s.id == sid) = true <;> simp [hc, applyUpdate_id]
      dsimp only
      rw [he]
      exact h.studentIds
    · intro s hs
      dsimp only at hs ⊢
      rcases List.mem_map.mp hs with ⟨t, ht, rfl⟩
      have hlt := h.studentIdLt t ht
      by_cases hc : (t.id == sid) = true <;> simp [hc, applyUpdate_id, hlt]
  · exact h

theorem inv_delete (db : DB) (sid : Nat) (h : Inv db) :
    Inv (deleteStudent db sid) := by
  unfold deleteStudent
  split
  · refine ⟨nodup_map_filter _ _ h.studentIds, ?_,
      nodup_map_filter _ _ h.attIds, ?_, nodup_map_filter _ _ h.attKeys⟩
    · intro s hs
      exact h.studentIdLt s (List.mem_of_mem_filter hs)
    · intro a ha
      exact h.attIdLt a (List.mem_of_mem_filter ha)
  · exact h

theorem inv_clearDate (db : DB) (d : Nat) (h : Inv db) : Inv (clearDate db d) := by
  refine ⟨h.studentIds, h.studentIdLt, nodup_map_filter _ _ h.attIds, ?_,
    nodup_map_filter _ _ h.attKeys⟩
  intro a ha
  exact h.attIdLt a (List.mem_of_mem_filter ha)

theorem inv_clearAllAttendance (db : DB) (h : Inv db) : Inv (clearAllAttendance db) := by
  refine ⟨h.studentIds, h.studentIdLt, List.nodup_nil, ?_, List.nodup_nil⟩
  intro a ha
  exact absurd ha (List.not_mem_nil a)

theorem inv_clearAllStudents (db : DB) (h : Inv db) : Inv (clearAllStudents db) := by
  refine ⟨List.nodup_nil, ?_, h.attIds, h.attIdLt, h.attKeys⟩
  intro s hs
  exact absurd hs (List.not_mem_nil s)

theorem inv_applyOp (db : DB) (op : Op) (h : Inv db) : Inv (applyOp db op) := by
  cases op with
  | mark code now => exact inv_mark db code now h
  | create p => exact inv_create db p h
  | update sid p => exact inv_update db sid p h
  | delete sid => exact inv_delete db sid h
  | clearDate d => exact inv_clearDate db d h
  | clearAllAtt => exact inv_clearAllAttendance db h
  | clearAllStudents => exact inv_clearAllStudents db h

theorem inv_initDB : Inv initDB := by
  refine ⟨List.nodup_nil, ?_, List.nodup_nil, ?_, List.nodup_nil⟩ <;>
    · intro x hx
      exact absurd hx (List.not_mem_nil x)

/-- Every reachable state satisfies the structural invariants; in
particular the `(student_id, date)` uniqueness constraint of the ledger. -/
theorem reachable_inv (db : DB) (h : Reachable db) : Inv db := by
  induction h with
  | init => exact inv_initDB
  | step db op _ ih => exact inv_applyOp db op ih

/-! ## Ledger rows are only inserted or deleted, never rewritten -/

theorem create_attendances (db : DB) (p : StudentPayload) :
    (createStudent db p).attendances = db.attendances := by
  unfold createStudent
  cases db.students.find? (fun s => s.code == p.code) <;> rfl

theorem update_attendances (db : DB) (sid : Nat) (p : UpdatePayload) :
    (updateStudent db sid p).attendances = db.attendances := by
  unfold updateStudent
  split <;> rfl

/-- Every attendance row present after one operation was either already
present, or is a fresh row whose id collides with no existing row. -/
theorem applyOp_att_mem (db : DB) (op : Op) (h : Inv db) :
    ∀ a ∈ (applyOp db op).attendances,
      a ∈ db.attendances ∨ ∀ b ∈ db.attendances, b.id ≠ a.id := by
  intro a ha
  cases op with
  | mark code now =>
    rcases mark_cases db code now with ⟨_, hdb, _⟩ | ⟨_, _, hatt, hdb⟩
    · rw [show applyOp db (Op.mark code now) = (markAttendance db code now).db from rfl,
        hdb, rocs_attendances] at ha
      exact Or.inl ha
    · rw [show applyOp db (Op.mark code now) = (markAttendance db code now).db from rfl,
        hdb] at ha
      dsimp only at ha
      rw [rocs_attendances] at ha
      rcases List.mem_append.mp ha with ha | ha
      · exact Or.inl ha
      · rcases List.mem_singleton.mp ha with rfl
        refine Or.inr ?_
        intro b hb
        have hlt := h.attIdLt b hb
        rw [hatt]
        dsimp only
        rw [rocs_nextAid]
        omega
  | create p =>
    rw [show applyOp db (Op.create p) = createStudent db p from rfl,
      create_attendances] at ha
    exact Or.inl ha
  | update sid p =>
    rw [show applyOp db (Op.update sid p) = updateStudent db sid p from rfl,
      update_attendances] at ha
    exact Or.inl ha
  | delete sid =>
    have hsub : (deleteStudent db sid).attendances.Sublist db.attendances := by
      unfold deleteStudent
      split
      · dsimp only
        exact List.filter_sublist _
      · exact List.Sublist.refl _
    exact Or.inl (hsub.mem ha)
  | clearDate d =>
    exact Or.inl ((List.filter_sublist _).mem ha)
  | clearAllAtt =>
    exact absurd ha (List.not_mem_nil a)
  | clearAllStudents =>
    exact Or.inl ha

/-- C1: on every reachable ledger state, the `(person, date)` pairs of the
attendance rows are duplicate-free (at most one record per person per
calendar date), and no operation of the system (attendance marking,
student creation / update / deletion, or any of the bulk clears) changes
the `date`, `time` or `status` field of an existing row: a row that is
still present after an operation (same primary key) is unchanged. -/
theorem C1_ledger_unique_and_immutable (db : DB) (h : Reachable db) :
    (db.attendances.map (fun a => (a.student_id, a.date))).Nodup ∧
    ∀ op : Op, ∀ a ∈ db.attendances, ∀ a' ∈ (applyOp db op).attendances,
      a'.id = a.id → a'.date = a.date ∧ a'.time = a.time ∧ a'.status = a.status := by
  have hinv := reachable_inv db h
  refine ⟨hinv.attKeys, ?_⟩
  intro op a ha a' ha' hid
  rcases applyOp_att_mem db op hinv a' ha' with hmem | hfresh
  · have : a' = a := eq_of_mem_of_nodup_map hinv.attIds hmem ha hid
    rw [this]
    exact ⟨rfl, rfl, rfl⟩
  · exact absurd hid.symm (hfresh a ha)

/-- Witness for C1 at a concrete reachable state. -/
theorem C1_witness :
    (dbOneMark.attendances.map (fun a => (a.student_id, a.date))).Nodup ∧
    ∀ op : Op, ∀ a ∈ dbOneMark.attendances, ∀ a' ∈ (applyOp dbOneMark op).attendances,
      a'.id = a.id → a'.date = a.date ∧ a'.time = a.time ∧ a'.status = a.status :=
  C1_ledger_unique_and_immutable dbOneMark
    (Reachable.step initDB (Op.mark "ana" ⟨0, 27000000000⟩) Reachable.init)

/-! ## C4: punctuality classification at the cutoff -/

/-- C4: whenever `attendance_mark` creates a new record, its status is
`Puntual` (OnTime) exactly when the timestamp's local time of day is at or
before the 07:30:00 cutoff, and `Tarde` (Late) exactly when it is strictly
after the cutoff. -/
theorem C4_mark_status_cutoff (db : DB) (code : String) (now : DateTime)
    (hNew : (markAttendance db code now).wasNew = true) :
    ((markAttendance db code now).att.status = "Puntual" ↔ now.tod ≤ cutoffMicros) ∧
    ((markAttendance db code now).att.status = "Tarde" ↔ cutoffMicros < now.tod) := by
  rcases mark_cases db code now with ⟨hfalse, _, _⟩ | ⟨_, _, hatt, _⟩
  · rw [hNew] at hfalse
    exact absurd hfalse (by decide)
  · rw [hatt]
    dsimp only
    unfold classifyStatus
    rcases Nat.lt_or_ge cutoffMicros now.tod with hlt | hge
    · rw [if_pos hlt]
      constructor
      · constructor
        · intro h
          exact absurd h (by decide)
        · intro h; omega
      · simp [hlt]
    · rw [if_neg (by omega)]
      constructor
      · simp [hge]
      · constructor
        · intro h
          exact absurd h (by decide)
        · intro h; omega

/-- Witness for C4 at the two boundary instants of the claim: 07:30:00
exactly (OnTime) and 07:30:01 (Late), both marked on the fresh database. -/
theorem C4_witness :
    (((markAttendance initDB "eva" ⟨0, 27000000000⟩).att.status = "Puntual"
        ↔ (⟨0, 27000000000⟩ : DateTime).tod ≤ cutoffMicros) ∧
     ((markAttendance initDB "eva" ⟨0, 27000000000⟩).att.status = "Tarde"
        ↔ cutoffMicros < (⟨0, 27000000000⟩ : DateTime).tod)) ∧
    (((markAttendance initDB "eva" ⟨0, 27001000000⟩).att.status = "Puntual"
        ↔ (⟨0, 27001000000⟩ : DateTime).tod ≤ cutoffMicros) ∧
     ((markAttendance initDB "eva" ⟨0, 27001000000⟩).att.status = "Tarde"
        ↔ cutoffMicros < (⟨0, 27001000000⟩ : DateTime).tod)) :=
  ⟨C4_mark_status_cutoff initDB "eva" ⟨0, 27000000000⟩ (by decide),
   C4_mark_status_cutoff initDB "eva" ⟨0, 27001000000⟩ (by decide)⟩

/-! ## C3: the resolver decision rule -/

/-- C3: for every non-empty candidate list, once sorted ascending by
distance the head is a minimal-distance candidate, and the resolver
returns `above_threshold` (with the best distance) when the best distance
exceeds the threshold regardless of margin; otherwise `low_margin` (with
best distance and the margin) when a second candidate exists within
`minMargin` of the best; otherwise acceptance of the best candidate's
identity and distance. -/
theorem C3_resolver_decision (cs : List Cand) (best : Cand) (rest : List Cand)
    (maxD minMargin : ℚ) (hs : sortByDistance cs = best :: rest) :
    (∀ c ∈ cs, best.distance ≤ c.distance) ∧
    (maxD < best.distance →
      resolveIdentity cs maxD minMargin
        = .unknown (some "above_threshold") (some best.distance) none) ∧
    (∀ second rest2, rest = second :: rest2 → best.distance ≤ maxD →
      second.distance - best.distance < minMargin →
      resolveIdentity cs maxD minMargin
        = .unknown (some "low_margin") (some best.distance)
            (some (second.distance - best.distance))) ∧
    (best.distance ≤ maxD →
      (∀ second rest2, rest = second :: rest2 → minMargin ≤ second.distance - best.distance) →
      resolveIdentity cs maxD minMargin = .accepted best.identity best.distance) := by
  refine ⟨?_, ?_, ?_, ?_⟩
  · intro c hc
    have hperm : List.Perm (sortByDistance cs) cs := List.perm_insertionSort candLE cs
    have hsorted : List.Sorted candLE (sortByDistance cs) :=
      List.sorted_insertionSort candLE cs
    rw [hs] at hperm hsorted
    have hc2 : c ∈ best :: rest := hperm.mem_iff.mpr hc
    rcases List.mem_cons.mp hc2 with rfl | hc2
    · exact le_refl _
    · exact (List.sorted_cons.mp hsorted).1 c hc2
  · intro h
    simp only [resolveIdentity, hs]
    rw [if_pos h]
  · intro second rest2 hrest hle hlt
    subst hrest
    simp only [resolveIdentity, hs]
    rw [if_neg (not_lt.mpr hle), if_pos hlt]
  · intro hle hmargin
    simp only [resolveIdentity, hs]
    rw [if_neg (not_lt.mpr hle)]
    cases rest with
    | nil => rfl
    | cons second rest2 =>
      dsimp only
      rw [if_neg (not_lt.mpr (hmargin second rest2 rfl))]

/-- Witness for C3 at a concrete two-candidate list (given unsorted, as
the engine may return it). -/
theorem C3_witness :
    (∀ c ∈ [Cand.mk "b" 2, Cand.mk "a" 1], (Cand.mk "a" 1).distance ≤ c.distance) ∧
    (6 < (Cand.mk "a" 1).distance →
      resolveIdentity [Cand.mk "b" 2, Cand.mk "a" 1] 6 1
        = .unknown (some "above_threshold") (some (Cand.mk "a" 1).distance) none) ∧
    (∀ second rest2, [Cand.mk "b" 2] = second :: rest2 →
      (Cand.mk "a" 1).distance ≤ 6 →
      second.distance - (Cand.mk "a" 1).distance < 1 →
      resolveIdentity [Cand.mk "b" 2, Cand.mk "a" 1] 6 1
        = .unknown (some "low_margin") (some (Cand.mk "a" 1).distance)
            (some (second.distance - (Cand.mk "a" 1).distance))) ∧
    ((Cand.mk "a" 1).distance ≤ 6 →
      (∀ second rest2, [Cand.mk "b" 2] = second :: rest2 →
        1 ≤ second.distance - (Cand.mk "a" 1).distance) →
      resolveIdentity [Cand.mk "b" 2, Cand.mk "a" 1] 6 1
        = .accepted (Cand.mk "a" 1).identity (Cand.mk "a" 1).distance) :=
  C3_resolver_decision [Cand.mk "b" 2, Cand.mk "a" 1] (Cand.mk "a" 1) [Cand.mk "b" 2]
    6 1 (by decide)

/-! ## C8: the empty candidate list -/

/-- C8 counterexample: on the empty candidate list the code returns the
bare `{"status": "unknown"}` payload (line 854), which carries *no*
`reason` field at all — `reasonOf` is `none`, not `some` of a
no-candidates tag as the claim asserts. -/
theorem C8_counterexample :
    Decision.reasonOf (resolveIdentity [] (6/5) (1/25)) = none ∧
    (none : Option String) ≠ some "no_candidates" := by
  constructor
  · rfl
  · intro h
    exact Option.noConfusion h

/-- C8 amended: for the empty candidate list the resolver returns the
Unknown decision as a first-class value (not an error), but carrying no
reason, distance or margin. -/
theorem C8_empty_unknown (maxD minMargin : ℚ) :
    resolveIdentity [] maxD minMargin = .unknown none none none := rfl

/-! ## C10: single-student deletion cascades and frames -/

/-- C10: deleting an existing student removes every attendance row of that
student (the ORM cascade), while membership of every other student row and
every other student's attendance rows is unchanged. -/
theorem C10_delete_cascades (db : DB) (sid : Nat)
    (hex : ∃ s ∈ db.students, s.id = sid) :
    (∀ a ∈ (deleteStudent db sid).attendances, a.student_id ≠ sid) ∧
    (∀ s : Student, s.id ≠ sid →
      (s ∈ (deleteStudent db sid).students ↔ s ∈ db.students)) ∧
    (∀ a : Attendance, a.student_id ≠ sid →
      (a ∈ (deleteStudent db sid).attendances ↔ a ∈ db.attendances)) := by
  have hany : (db.students.any fun s => s.id == sid) = true := by
    rcases hex with ⟨s, hs, rfl⟩
    exact List.any_eq_true.mpr ⟨s, hs, by simp⟩
  unfold deleteStudent
  rw [if_pos hany]
  dsimp only
  refine ⟨?_, ?_, ?_⟩
  · intro a ha
    have hp := List.of_mem_filter ha
    simpa using hp
  · intro s hne
    rw [List.mem_filter]
    simp [hne]
  · intro a hne
    rw [List.mem_filter]
    simp [hne]

/-- Witness for C10: delete student 1 of the two-student state. -/
theorem C10_witness :
    (∀ a ∈ (deleteStudent dbTwoStudents 1).attendances, a.student_id ≠ 1) ∧
    (∀ s : Student, s.id ≠ 1 →
      (s ∈ (deleteStudent dbTwoStudents 1).students ↔ s ∈ dbTwoStudents.students)) ∧
    (∀ a : Attendance, a.student_id ≠ 1 →
      (a ∈ (deleteStudent dbTwoStudents 1).attendances ↔ a ∈ dbTwoStudents.attendances)) :=
  C10_delete_cascades dbTwoStudents 1 (by decide)

/-! ## C9: no division by zero in the summary percentages -/

/-- C9: whenever the filtered record set of a summary query is empty, both
`punctuality_pct` and `late_pct` are 0 (the guarded division of lines
1059-1060 never divides by zero). -/
theorem C9_empty_percentages (db : DB) (grade section_ : Option String)
    (start stop : Option Nat)
    (h : (metricsSummary db grade section_ start stop).records_total = 0) :
    (metricsSummary db grade section_ start stop).punctuality_pct = 0 ∧
    (metricsSummary db grade section_ start stop).late_pct = 0 := by
  unfold metricsSummary at h ⊢
  dsimp only at h ⊢
  rw [h]
  simp [round2]

/-- Witness for C9 on the fresh database. -/
theorem C9_witness :
    (metricsSummary initDB none none none none).punctuality_pct = 0 ∧
    (metricsSummary initDB none none none none).late_pct = 0 :=
  C9_empty_percentages initDB none none none none (by decide)

/-! ## C2: marking twice on the same day -/

theorem rocs_of_find (db : DB) (code : String) (s : Student)
    (h : db.students.find? (fun s => s.code == code) = some s) :
    resolveOrCreateStudent db code = (s, db) := by
  unfold resolveOrCreateStudent
  rw [h]

/-- After student resolution, looking the code up again finds the resolved
student. -/
theorem rocs_self_find (db : DB) (code : String) :
    (resolveOrCreateStudent db code).2.students.find? (fun s => s.code == code)
      = some (resolveOrCreateStudent db code).1 := by
  unfold resolveOrCreateStudent
  cases h : db.students.find? (fun s => s.code == code) with
  | some s => exact h
  | none =>
    dsimp only
    rw [List.find?_append, h]
    simp [List.find?_cons]

theorem mark_students (db : DB) (code : String) (now : DateTime) :
    (markAttendance db code now).db.students
      = (resolveOrCreateStudent db code).2.students := by
  rcases mark_cases db code now with ⟨_, hdb, _⟩ | ⟨_, _, _, hdb⟩ <;>
    rw [hdb]

/-- After a marking, the (student, that day) lookup finds the returned row. -/
theorem mark_att_find (db : DB) (code : String) (now : DateTime) :
    (markAttendance db code now).db.attendances.find?
      (attKeyIs (resolveOrCreateStudent db code).1.id now.dateOf)
      = some (markAttendance db code now).att := by
  rcases mark_cases db code now with ⟨_, hdb, hfind⟩ | ⟨_, hnone, hatt, hdb⟩
  · rw [hdb]; exact hfind
  · rw [hdb]
    dsimp only
    rw [List.find?_append, List.find?_eq_none.mpr hnone]
    simp [List.find?_cons, hatt, attKeyIs]

/-- A second marking with a timestamp of the same calendar day is a no-op:
it returns the first call's row, reports no insertion, and leaves the
state untouched. -/
theorem mark_mark_same_day (db : DB) (code : String) (t1 t2 : DateTime)
    (hday : t2.day = t1.day) :
    markAttendance (markAttendance db code t1).db code t2
      = ⟨(markAttendance db code t1).att, false, (markAttendance db code t1).db⟩ := by
  set R := markAttendance db code t1 with hR
  have hrocs : resolveOrCreateStudent R.db code
      = ((resolveOrCreateStudent db code).1, R.db) := by
    apply rocs_of_find
    rw [hR, mark_students]
    exact rocs_self_find db code
  have hfind : R.db.attendances.find?
      (attKeyIs (resolveOrCreateStudent db code).1.id t1.dateOf) = some R.att := by
    rw [hR]
    exact mark_att_find db code t1
  simp only [markAttendance, hrocs]
  rw [show DateTime.dateOf t2 = DateTime.dateOf t1 from hday, hfind]

/-- A predicate that forces a unique key hits at most one entry of a list
with duplicate-free keys. -/
theorem countP_le_one_of_nodup_map {α β : Type} (f : α → β) (p : α → Bool)
    (hp : ∀ a, p a = true → ∀ b, p b = true → f a = f b) :
    ∀ l : List α, (l.map f).Nodup → l.countP p ≤ 1 := by
  intro l
  induction l with
  | nil => intro _; simp [List.countP_nil]
  | cons x xs ih =>
    intro h
    rw [List.map_cons, List.nodup_cons] at h
    rw [List.countP_cons]
    by_cases hx : p x = true
    · have hzero : xs.countP p = 0 := by
        rw [List.countP_eq_zero]
        intro a ha hpa
        exact h.1 (List.mem_map.mpr ⟨a, ha, (hp a hpa x hx).symm ▸ rfl⟩)
      simp [hzero, hx]
    · have := ih h.2
      simp only [hx]
      simpa using this

/-- After one marking there is exactly one ledger row for that student and
that day (given the uniqueness invariant on the pre-state). -/
theorem mark_count_one (db : DB) (code : String) (t1 : DateTime) (h : Inv db) :
    ((markAttendance db code t1).db.attendances.countP
      (attKeyIs (resolveOrCreateStudent db code).1.id t1.dateOf)) = 1 := by
  have h1 : Inv (resolveOrCreateStudent db code).2 := inv_rocs db code h
  have hpkey : ∀ a, attKeyIs (resolveOrCreateStudent db code).1.id t1.dateOf a = true →
      ∀ b, attKeyIs (resolveOrCreateStudent db code).1.id t1.dateOf b = true →
      (fun a : Attendance => (a.student_id, a.date)) a
        = (fun a : Attendance => (a.student_id, a.date)) b := by
    intro a hpa b hpb
    simp only [attKeyIs, Bool.and_eq_true, beq_iff_eq] at hpa hpb
    simp [hpa.1, hpa.2, hpb.1, hpb.2]
  have hple := countP_le_one_of_nodup_map (fun a : Attendance => (a.student_id, a.date))
    (attKeyIs (resolveOrCreateStudent db code).1.id t1.dateOf) hpkey
  rcases mark_cases db code t1 with ⟨_, hdb, hfind⟩ | ⟨_, hnone, hatt, hdb⟩
  · rw [hdb]
    have hmem := List.mem_of_find?_eq_some hfind
    have hp := List.find?_some hfind
    have hpos : 0 < (resolveOrCreateStudent db code).2.attendances.countP
        (attKeyIs (resolveOrCreateStudent db code).1.id t1.dateOf) :=
      List.countP_pos_iff.mpr ⟨_, hmem, hp⟩
    have hle := hple _ h1.attKeys
    omega
  · rw [hdb]
    dsimp only
    rw [List.countP_append, List.countP_eq_zero.mpr hnone]
    simp [List.countP_cons, hatt, attKeyIs]

/-- C2 counterexample: marking twice on the same day, the first call
inserts a row (`if not att` branch taken) and the second does not, yet the
two HTTP payloads are *identical* — both are `status = "marked"` with the
same record fields and no further field.  Consequently no reading of the
response can report `wasNew = false`: there is no function of the response
that distinguishes the creating call from the idempotent one, so the
response carries no was-new flag, contrary to the claim. -/
theorem C2_counterexample :
    (markAttendance initDB "eva" t1C2).wasNew = true ∧
    (markAttendance (markAttendance initDB "eva" t1C2).db "eva" t2C2).wasNew = false ∧
    markResponse (markAttendance initDB "eva" t1C2).db "eva" t2C2 1
      = markResponse initDB "eva" t1C2 1 ∧
    ¬ ∃ f : MarkResponse → Bool,
        f (markResponse initDB "eva" t1C2 1) = true ∧
        f (markResponse (markAttendance initDB "eva" t1C2).db "eva" t2C2 1) = false := by
  have hresp : markResponse (markAttendance initDB "eva" t1C2).db "eva" t2C2 1
      = markResponse initDB "eva" t1C2 1 := by decide
  refine ⟨by decide, by decide, hresp, ?_⟩
  rintro ⟨f, h1, h2⟩
  rw [hresp, h1] at h2
  exact absurd h2 (by decide)

/-- C2 amended: on a state satisfying the ledger invariants, marking the
same person code at two timestamps of the same calendar date yields
exactly one attendance row for that person and date; the second call
returns the very row of the first call (hence the same date, time and
status), performs no write, and produces a payload identical to the first
call's — the response does not indicate whether the row was newly
created. -/
theorem C2_mark_idempotent_same_day (db : DB) (code : String) (t1 t2 : DateTime)
    (hInv : Inv db) (hday : t2.day = t1.day) :
    (markAttendance (markAttendance db code t1).db code t2).att
      = (markAttendance db code t1).att ∧
    (markAttendance (markAttendance db code t1).db code t2).wasNew = false ∧
    (markAttendance (markAttendance db code t1).db code t2).db
      = (markAttendance db code t1).db ∧
    ((markAttendance (markAttendance db code t1).db code t2).db.attendances.countP
      (attKeyIs (resolveOrCreateStudent db code).1.id t1.dateOf)) = 1 ∧
    ∀ d : ℚ, markResponse (markAttendance db code t1).db code t2 d
      = markResponse db code t1 d := by
  have hmm := mark_mark_same_day db code t1 t2 hday
  have hcount := mark_count_one db code t1 hInv
  refine ⟨by rw [hmm], by rw [hmm], by rw [hmm], by rw [hmm]; exact hcount, ?_⟩
  intro d
  have hrocs : resolveOrCreateStudent (markAttendance db code t1).db code
      = ((resolveOrCreateStudent db code).1, (markAttendance db code t1).db) := by
    apply rocs_of_find
    rw [mark_students]
    exact rocs_self_find db code
  unfold markResponse
  rw [hmm, hrocs]

/-- Witness for C2 (amended) on the fresh database at 07:30:00 and
08:20:00 of day 3. -/
theorem C2_witness :
    (markAttendance (markAttendance initDB "eva" t1C2).db "eva" t2C2).att
      = (markAttendance initDB "eva" t1C2).att ∧
    (markAttendance (markAttendance initDB "eva" t1C2).db "eva" t2C2).wasNew = false ∧
    (markAttendance (markAttendance initDB "eva" t1C2).db "eva" t2C2).db
      = (markAttendance initDB "eva" t1C2).db ∧
    ((markAttendance (markAttendance initDB "eva" t1C2).db "eva" t2C2).db.attendances.countP
      (attKeyIs (resolveOrCreateStudent initDB "eva").1.id t1C2.dateOf)) = 1 ∧
    ∀ d : ℚ, markResponse (markAttendance initDB "eva" t1C2).db "eva" t2C2 d
      = markResponse initDB "eva" t1C2 d :=
  C2_mark_idempotent_same_day initDB "eva" t1C2 t2C2 inv_initDB rfl

/-! ## C7: the today() metrics -/

theorem length_le_of_nodup_subset {α : Type} [DecidableEq α] {l1 l2 : List α}
    (h1 : l1.Nodup) (hsub : l1 ⊆ l2) : l1.length ≤ l2.length := by
  calc l1.length = l1.toFinset.card := (List.toFinset_card_of_nodup h1).symm
    _ ≤ l2.toFinset.card :=
        Finset.card_le_card (fun x hx => List.mem_toFinset.mpr (hsub (List.mem_toFinset.mp hx)))
    _ ≤ l2.length := l2.toFinset_card_le

/-- If the `(student_id, date)` pairs of a list are duplicate-free and all
its dates agree, its student ids are duplicate-free. -/
theorem nodup_sid_of_nodup_keys {l : List Attendance} {d : Nat}
    (h : (l.map (fun a => (a.student_id, a.date))).Nodup)
    (hc : ∀ a ∈ l, a.date = d) :
    (l.map (fun a => a.student_id)).Nodup := by
  induction l with
  | nil => simp
  | cons x xs ih =>
    simp only [List.map_cons, List.nodup_cons] at h ⊢
    refine ⟨?_, ih h.2 (fun a ha => hc a (List.mem_cons_of_mem x ha))⟩
    intro hmem
    rcases List.mem_map.mp hmem with ⟨a, ha, heq⟩
    apply h.1
    apply List.mem_map.mpr
    refine ⟨a, ha, ?_⟩
    rw [hc a (List.mem_cons_of_mem x ha), hc x (List.mem_cons_self x xs), heq]

/-- On a state with ledger uniqueness and referential integrity, the
number of attendance rows of one date is at most the number of students. -/
theorem today_count_le_students (db : DB) (today : Nat)
    (hfk : AttFK db)
    (hkeys : (db.attendances.map (fun a => (a.student_id, a.date))).Nodup) :
    (db.attendances.filter (fun a => a.date == today)).length ≤ db.students.length := by
  set l := db.attendances.filter (fun a => a.date == today) with hl
  have hnodup : (l.map (fun a => a.student_id)).Nodup := by
    apply nodup_sid_of_nodup_keys (d := today)
    · exact nodup_map_filter _ _ hkeys
    · intro a ha
      have := List.of_mem_filter ha
      simpa using this
  have hsub : (l.map (fun a => a.student_id)) ⊆ (db.students.map (fun s => s.id)) := by
    intro i hi
    rcases List.mem_map.mp hi with ⟨a, ha, rfl⟩
    rcases hfk a (List.mem_of_mem_filter ha) with ⟨s, hs, hsid⟩
    exact List.mem_map.mpr ⟨s, hs, hsid⟩
  have := length_le_of_nodup_subset hnodup hsub
  simpa using this

/-- C7 counterexample: on the reachable state with an orphaned attendance
row, `metrics_today` reports `absent_today = 0` although
`studentsTotal − recordsToday = −1`: the value is *not* computed directly
as that difference — line 996 clamps it with `max(…, 0)`. -/
theorem C7_counterexample :
    Reachable dbOrphan ∧
    dbOrphan.students.length = 0 ∧
    (metricsToday dbOrphan 0).total_today = 1 ∧
    (metricsToday dbOrphan 0).absent_today = 0 ∧
    (dbOrphan.students.length : ℤ) - ((metricsToday dbOrphan 0).total_today : ℤ) = -1 ∧
    (0 : ℤ) ≠ -1 :=
  ⟨Reachable.step _ _ (Reachable.step _ _ Reachable.init),
   by decide, by decide, by decide, by decide, by decide⟩

/-- C7 amended: `metrics_today` reports the raw counts of today's rows
(total / punctual / late) and `absent_today = max(studentsTotal −
recordsToday, 0)`; whenever every attendance row belongs to a registered
student and the per-day uniqueness holds — in particular on every state
whose ledger has no orphans — the clamp is inert and `absent_today` equals
the direct difference `studentsTotal − recordsToday`. -/
theorem C7_today_metrics (db : DB) (today : Nat)
    (hfk : AttFK db)
    (hkeys : (db.attendances.map (fun a => (a.student_id, a.date))).Nodup) :
    (metricsToday db today).total_today
        = (db.attendances.filter (fun a => a.date == today)).length ∧
    (metricsToday db today).punctual_today
        = ((db.attendances.filter (fun a => a.date == today)).filter
            (fun a => a.status == "Puntual")).length ∧
    (metricsToday db today).late_today
        = ((db.attendances.filter (fun a => a.date == today)).filter
            (fun a => a.status == "Tarde")).length ∧
    (metricsToday db today).absent_today
        = (db.students.length : ℤ)
            - ((db.attendances.filter (fun a => a.date == today)).length : ℤ) := by
  refine ⟨rfl, rfl, rfl, ?_⟩
  have hle := today_count_le_students db today hfk hkeys
  unfold metricsToday
  dsimp only
  rw [max_eq_left (by omega)]

/-- Witness for C7 (amended) on the two-student state. -/
theorem C7_witness :
    (metricsToday dbTwoStudents 5).total_today
        = (dbTwoStudents.attendances.filter (fun a => a.date == 5)).length ∧
    (metricsToday dbTwoStudents 5).punctual_today
        = ((dbTwoStudents.attendances.filter (fun a => a.date == 5)).filter
            (fun a => a.status == "Puntual")).length ∧
    (metricsToday dbTwoStudents 5).late_today
        = ((dbTwoStudents.attendances.filter (fun a => a.date == 5)).filter
            (fun a => a.status == "Tarde")).length ∧
    (metricsToday dbTwoStudents 5).absent_today
        = (dbTwoStudents.students.length : ℤ)
            - ((dbTwoStudents.attendances.filter (fun a => a.date == 5)).length : ℤ) :=
  C7_today_metrics dbTwoStudents 5 (by unfold AttFK; decide) (by decide)

/-! ## C6: the arrival-time buckets -/

/-- For times at or after the 07:30 cutoff the code's bucket choice agrees
with the labelled intervals — the divergence below is confined to
pre-cutoff times, which supports reading it as a slip rather than intent. -/
theorem bucketOf_spec_on_cutoff_or_later (t : Nat) (h : cutoffMicros ≤ t) :
    specBucketContains (bucketOf t) t = true := by
  unfold bucketOf
  split_ifs with h1 h2 h3 h4 <;>
    simp only [specBucketContains, Bool.and_eq_true, decide_eq_true_eq,
      cutoffMicros, micros0745, micros0800, micros0815, micros0830] at * <;>
    omega

/-- C6 (code bug evaluation): a record at 07:00 lies in none of the five
labelled intervals, yet `metrics_detailed` counts it in the `7:45-8:00`
bucket — the `elif t < 08:00` branch of line 1151 catches every
pre-cutoff time because only the first branch checks a lower bound. -/
theorem C6_early_record_miscounted :
    specBucketContains Bucket.b0730 25200000000 = false ∧
    specBucketContains Bucket.b0745 25200000000 = false ∧
    specBucketContains Bucket.b0800 25200000000 = false ∧
    specBucketContains Bucket.b0815 25200000000 = false ∧
    specBucketContains Bucket.b0830plus 25200000000 = false ∧
    bucketOf 25200000000 = Bucket.b0745 ∧
    (metricsDetailed dbC6 none none none none).bucket0745 = 1 ∧
    (metricsDetailed dbC6 none none none none).bucket0730 = 0 ∧
    (metricsDetailed dbC6 none none none none).count = 1 := by
  refine ⟨by decide, by decide, by decide, by decide, by decide, by decide, ?_, ?_, ?_⟩ <;>
    decide

/-! ## C5: the absentee percentage of the summary -/

/-- Membership in the attendance-student join. -/
theorem mem_joinedRows {db : DB} {row : Attendance × Student} :
    row ∈ joinedRows db ↔
      ∃ a ∈ db.attendances, ∃ s ∈ db.students, s.id = a.student_id ∧ row = (a, s) := by
  unfold joinedRows
  simp only [List.mem_flatMap, List.mem_map, List.mem_filter, beq_iff_eq]
  constructor
  · rintro ⟨a, ha, s, ⟨hs, hid⟩, rfl⟩
    exact ⟨a, ha, s, hs, hid, rfl⟩
  · rintro ⟨a, ha, s, hs, hid, rfl⟩
    exact ⟨a, ha, s, ⟨hs, hid⟩, rfl⟩

/-- Membership in the filtered summary rows, for an explicit date range. -/
theorem mem_summaryRows {db : DB} {a b : Nat} {g c : Option String}
    {row : Attendance × Student} :
    row ∈ summaryRows db (some a) (some b) g c ↔
      row ∈ joinedRows db ∧ a ≤ row.1.date ∧ row.1.date ≤ b ∧
      studentFilter g c row.2 = true := by
  unfold summaryRows rowFilter
  rw [List.mem_filter]
  simp [Bool.and_eq_true, decide_eq_true_eq, and_assoc]

/-- On a registry with unique student ids, the code's
`SELECT DISTINCT student_id` count over the joined, range-filtered rows
equals the claim's count of filtered persons with at least one record in
the range. -/
theorem distinct_eq_attended (db : DB) (g c : Option String) (a b : Nat)
    (hsid : (db.students.map (fun s => s.id)).Nodup) :
    distinctAttendees db (some a) (some b) g c = attendedCount db g c a b := by
  have hmem : ∀ x,
      x ∈ ((summaryRows db (some a) (some b) g c).map (fun r => r.1.student_id)).dedup ↔
      x ∈ ((filteredStudents db g c).filter
        (fun s => db.attendances.any
          (fun r => r.student_id == s.id && (decide (a ≤ r.date) && decide (r.date ≤ b))))).map
          (fun s => s.id) := by
    intro x
    rw [List.mem_dedup]
    constructor
    · intro hx
      rcases List.mem_map.mp hx with ⟨row, hrow, rfl⟩
      rcases mem_summaryRows.mp hrow with ⟨hjr, hlo, hhi, hsf⟩
      rcases mem_joinedRows.mp hjr with ⟨att, hatt, s, hs, hid, rfl⟩
      apply List.mem_map.mpr
      refine ⟨s, ?_, hid⟩
      rw [List.mem_filter]
      constructor
      · unfold filteredStudents
        rw [List.mem_filter]
        exact ⟨hs, hsf⟩
      · apply List.any_eq_true.mpr
        refine ⟨att, hatt, ?_⟩
        simp only [Bool.and_eq_true, beq_iff_eq, decide_eq_true_eq]
        exact ⟨hid.symm, hlo, hhi⟩
    · intro hx
      rcases List.mem_map.mp hx with ⟨s, hstgt, rfl⟩
      rw [List.mem_filter] at hstgt
      rcases hstgt with ⟨hsf, hany⟩
      rcases List.any_eq_true.mp hany with ⟨att, hatt, hcond⟩
      simp only [Bool.and_eq_true, beq_iff_eq, decide_eq_true_eq] at hcond
      unfold filteredStudents at hsf
      rw [List.mem_filter] at hsf
      apply List.mem_map.mpr
      refine ⟨(att, s), ?_, hcond.1⟩
      apply mem_summaryRows.mpr
      refine ⟨mem_joinedRows.mpr ⟨att, hatt, s, hsf.1, hcond.1.symm, rfl⟩,
        hcond.2.1, hcond.2.2, hsf.2⟩
  have h1 : ((summaryRows db (some a) (some b) g c).map
      (fun r => r.1.student_id)).dedup.Nodup := List.nodup_dedup _
  have h2 : (((filteredStudents db g c).filter
      (fun s => db.attendances.any
        (fun r => r.student_id == s.id && (decide (a ≤ r.date) && decide (r.date ≤ b))))).map
        (fun s => s.id)).Nodup := by
    apply nodup_map_filter
    exact nodup_map_filter _ _ hsid
  have hperm := (List.perm_ext_iff_of_nodup h1 h2).mpr hmem
  have hlen := hperm.length_eq
  unfold distinctAttendees attendedCount
  rw [hlen, List.length_map]

/-- C5 counterexample: with 3 filtered students of which 1 attended in the
range, the code returns `round(66.666…, 2) = 66.67`, while the claim's
exact formula `(3 − 1)/3 × 100 = 200/3` is not a two-decimal number — the
reported value is the rounded percentage, not the exact quotient. -/
theorem C5_counterexample :
    (metricsSummary dbC5three none none (some 10) (some 10)).absent_pct = 6667/100 ∧
    (6667/100 : ℚ) ≠ (((3 : ℚ) - 1) / 3) * 100 := by
  constructor
  · have hS : (filteredStudents dbC5three none none).length = 3 := by decide
    have hW : distinctAttendees dbC5three (some 10) (some 10) none none = 1 := by decide
    unfold metricsSummary
    dsimp only
    rw [hS, hW, if_pos (by decide : (3 : Nat) ≠ 0)]
    norm_num [round2, round_eq]
  · norm_num

/-- C5 amended: for every state whose registry has unique student ids,
every inclusive date range and every grade/section filter: when the
filtered `studentsTotal` is positive, `absent_pct` equals
`(studentsTotal − attended) / studentsTotal × 100` **rounded to two
decimal places**, where `attended` is the number of distinct filtered
persons having at least one attendance record dated within the range; and
when `studentsTotal` is 0, `absent_pct` is 0. -/
theorem C5_summary_absent_pct (db : DB) (g c : Option String) (a b : Nat)
    (hsid : (db.students.map (fun s => s.id)).Nodup) :
    ((filteredStudents db g c).length ≠ 0 →
      (metricsSummary db g c (some a) (some b)).absent_pct
        = round2 ((((filteredStudents db g c).length : ℚ)
            - (attendedCount db g c a b : ℚ))
            / ((filteredStudents db g c).length : ℚ) * 100)) ∧
    ((filteredStudents db g c).length = 0 →
      (metricsSummary db g c (some a) (some b)).absent_pct = 0) := by
  have hda := distinct_eq_attended db g c a b hsid
  constructor
  · intro hne
    unfold metricsSummary
    dsimp only
    rw [if_pos hne, hda]
    congr 1
    push_cast
    ring
  · intro hz
    unfold metricsSummary
    dsimp only
    rw [if_neg (not_not_intro hz)]

/-- Witness for C5 (amended): the claim's own scenario — 5 registered
persons, 2 with in-range records — gives `absent_pct = 60`. -/
theorem C5_witness :
    (((filteredStudents dbC5five none none).length ≠ 0 →
      (metricsSummary dbC5five none none (some 10) (some 20)).absent_pct
        = round2 ((((filteredStudents dbC5five none none).length : ℚ)
            - (attendedCount dbC5five none none 10 20 : ℚ))
            / ((filteredStudents dbC5five none none).length : ℚ) * 100)) ∧
     ((filteredStudents dbC5five none none).length = 0 →
      (metricsSummary dbC5five none none (some 10) (some 20)).absent_pct = 0)) ∧
    (metricsSummary dbC5five none none (some 10) (some 20)).absent_pct = 60 := by
  have h := C5_summary_absent_pct dbC5five none none 10 20 (by decide)
  refine ⟨h, ?_⟩
  have h1 := h.1 (by decide)
  rw [h1]
  have hS : (filteredStudents dbC5five none none).length = 5 := by decide
  have hA : attendedCount dbC5five none none 10 20 = 2 := by decide
  rw [hS, hA]
  norm_num [round2, round_eq]

end Eduface
